import Mathlib

/-!
Formal model of the playlist synchronization core of the repository
(`googleSheets.ts`): the Reader (`getPlaylistData`), the Writer
(`updatePlaylistData`), the four Mutator operations
(`toggleSongSelection`, `addSongToPlaylist`, `removeSongFromPlaylist`,
`reorderPlaylist`) and the rate limiter (`rateLimitedFetch`).

The backing store is modelled as the value matrix (`List (List String)`)
exchanged with the Sheets endpoints; network effects are modelled by
explicit outcome types (`ReadFetchResult`, `WriteFetchResult`), and the
module-level mutable state of the rate limiter by explicit state passing
(`LimiterState`).  Each mutator is modelled as the pure transformation
from the fetched snapshot to the list it passes to the Writer, which is
exactly the source behaviour when the store does not change between the
operation's read and write.
-/

/-- One playlist row: `[Song UUID, Selected]`, with `order` given by row
position (interface `PlaylistItem` in the source). -/
structure PlaylistItem where
  songId : String
  selected : Bool
  order : Nat
deriving DecidableEq, Inhabited

/-- The `Selected`-cell test of the Reader: the source compares the raw
cell with `===` against exactly `'TRUE'`, `'true'` and `'1'`
(`row[1] === 'TRUE' || row[1] === 'true' || row[1] === '1'`); a missing
cell (`undefined`) is modelled as `none`. -/
def parseSelected (cell : Option String) : Bool :=
  cell == some "TRUE" || cell == some "true" || cell == some "1"

/-- One step of the Reader's row conversion
(`(row, index) => ({ songId: row[0] || '', selected: ..., order: index })`).
`row[0] || ''` yields `""` both for a missing and for an empty first cell,
which `List.headD` reproduces. -/
def rowToItem (index : Nat) (row : List String) : PlaylistItem :=
  { songId := row.headD "", selected := parseSelected row[1]?, order := index }

/-- The Reader's parsing of a fetched value matrix: skip the header row
(`rows.slice(1)`), convert each data row with its zero-based index
(`.map((row, index) => ...)`), then drop rows whose first cell was empty
(`.filter(item => item.songId)`). -/
def parseRows (rows : List (List String)) : List PlaylistItem :=
  (List.mapIdx rowToItem (rows.drop 1)).filter (fun it => it.songId ≠ "")

/-- Body of a successful Sheets values response; the `values` field is
absent (`data.values || []`) when the range is empty. -/
structure SheetsJson where
  values : Option (List (List String))
deriving DecidableEq

/-- Outcome of the Reader's HTTP GET: the promise rejects
(`networkError`), or a response arrives with a status and a body, the
body being `none` when `response.json()` fails to parse. -/
inductive ReadFetchResult where
  | networkError
  | response (status : Nat) (body : Option SheetsJson)
deriving DecidableEq

/-- `response.ok` of the Fetch API: status in `200..299`. -/
def httpOk (status : Nat) : Bool :=
  decide (200 ≤ status) && decide (status ≤ 299)

/-- The Reader `getPlaylistData`: on a non-ok status it throws (403 and
the generic case alike) and the surrounding `catch` returns `[]`; a body
that fails to parse likewise ends in the `catch`; on success it parses
the (possibly absent) `values` matrix. -/
def getPlaylistData : ReadFetchResult → List PlaylistItem
  | ReadFetchResult.networkError => []
  | ReadFetchResult.response status body =>
    if httpOk status then
      match body with
      | none => []
      | some data => parseRows (data.values.getD [])
    else []

/-- The Writer's sort (`[...playlistItems].sort((a, b) => a.order - b.order)`).
`Array.prototype.sort` is a stable ascending sort by the comparator; any
stable sort produces the same list, and insertion sort is used here
because it is structurally recursive (so concrete instances reduce). -/
def sortByOrder (items : List PlaylistItem) : List PlaylistItem :=
  items.insertionSort (fun a b => a.order ≤ b.order)

/-- Serialization of one entry for the write payload
(`[item.songId, item.selected ? 'TRUE' : 'FALSE']`). -/
def itemRow (it : PlaylistItem) : List String :=
  [it.songId, if it.selected then "TRUE" else "FALSE"]

/-- The Writer's full replacement payload: header row followed by the
entries sorted by `order`. -/
def writeValues (items : List PlaylistItem) : List (List String) :=
  ["Song UUID", "Selected"] :: (sortByOrder items).map itemRow

/-- Error kinds thrown by the Writer, one per `throw` site of
`updatePlaylistData`. -/
inductive WriteError where
  | unauthenticated
  | noAccessToken
  | authFailed
  | permissionDenied
  | httpError (status : Nat)
  | network
deriving DecidableEq

/-- Outcome of the Writer's HTTP PUT. -/
inductive WriteFetchResult where
  | networkError
  | response (status : Nat)
deriving DecidableEq

/-- The Writer's environment: the Authorization Gate (`isGapiReady()`),
the bearer credential (`getAccessToken()`), and what the transport would
answer if the PUT is issued. -/
structure WriteEnv where
  gapiReady : Bool
  accessToken : Option String
  writeResult : WriteFetchResult
deriving DecidableEq

/-- Result of the Writer: the value/error it settles with, together with
the payload sent on the wire (`none` when no network call was made). -/
structure WriteOutcome where
  result : Except WriteError Unit
  sentPayload : Option (List (List String))

/-- The Writer `updatePlaylistData`: reject immediately when the gate is
not ready; otherwise sort, build the payload, require an access token,
issue the PUT, and map response statuses to errors (401, 403, generic)
exactly as the source's `throw` chain does. -/
def updatePlaylistData (env : WriteEnv) (playlistItems : List PlaylistItem) : WriteOutcome :=
  if env.gapiReady = false then
    { result := Except.error WriteError.unauthenticated, sentPayload := none }
  else
    let values := writeValues playlistItems
    match env.accessToken with
    | none => { result := Except.error WriteError.noAccessToken, sentPayload := none }
    | some _ =>
      match env.writeResult with
      | WriteFetchResult.networkError =>
        { result := Except.error WriteError.network, sentPayload := some values }
      | WriteFetchResult.response status =>
        if httpOk status then
          { result := Except.ok (), sentPayload := some values }
        else if status = 401 then
          { result := Except.error WriteError.authFailed, sentPayload := some values }
        else if status = 403 then
          { result := Except.error WriteError.permissionDenied, sentPayload := some values }
        else
          { result := Except.error (WriteError.httpError status), sentPayload := some values }

/-- The Mutator `addSongToPlaylist` as the snapshot transformation: append
`{ songId, selected: true, order: currentPlaylist.length }`. -/
def addSongToPlaylist (current : List PlaylistItem) (songId : String) : List PlaylistItem :=
  current ++ [{ songId := songId, selected := true, order := current.length }]

/-- The Mutator `removeSongFromPlaylist` as the snapshot transformation:
`filter(item => item.songId !== songId).map((item, index) => ({ ...item, order: index }))`. -/
def removeSongFromPlaylist (current : List PlaylistItem) (songId : String) : List PlaylistItem :=
  List.mapIdx (fun i it => { it with order := i })
    (current.filter (fun it => it.songId ≠ songId))

/-- The Mutator `toggleSongSelection` as the snapshot transformation:
`find` the entry; if selected, delegate to remove; if unselected, set
`selected: true` on every entry matching the id; if absent, delegate to
add.  The delegated operations re-fetch in the source; the model assumes
the store is unchanged between the two reads. -/
def toggleSongSelection (current : List PlaylistItem) (songId : String) : List PlaylistItem :=
  match current.find? (fun it => it.songId == songId) with
  | some existingItem =>
    if existingItem.selected then
      removeSongFromPlaylist current songId
    else
      current.map (fun it => if it.songId == songId then { it with selected := true } else it)
  | none => addSongToPlaylist current songId

/-- The Mutator `reorderPlaylist` as the snapshot transformation: one
entry per supplied id, `selected` looked up in the snapshot
(`existingItem?.selected ?? true`), `order` the id's position. -/
def reorderPlaylist (current : List PlaylistItem) (reorderedSongIds : List String) : List PlaylistItem :=
  List.mapIdx
    (fun i songId =>
      { songId := songId,
        selected := ((current.find? (fun it => it.songId == songId)).map PlaylistItem.selected).getD true,
        order := i })
    reorderedSongIds

/-- `RATE_LIMIT_DELAY` of the source, in milliseconds (modelled on `Int`
virtual time). -/
def RATE_LIMIT_DELAY : Int := 1000

/-- The rate limiter's module-level mutable state (`lastRequestTime`). -/
structure LimiterState where
  lastRequestTime : Int
deriving DecidableEq

/-- One invocation of `rateLimitedFetch`, as a step function of virtual
time: the synchronous prefix runs at time `now` and reads
`lastRequestTime` from `st`; if less than `RATE_LIMIT_DELAY` has passed
the continuation is scheduled by `setTimeout` for
`lastRequestTime + RATE_LIMIT_DELAY`, and only on resumption does it
write `lastRequestTime = Date.now()` and start the fetch.  Returns the
time the guarded fetch starts and the state after the write. -/
def rateLimitedFetch (st : LimiterState) (now : Int) : Int × LimiterState :=
  let timeSinceLastRequest := now - st.lastRequestTime
  if timeSinceLastRequest < RATE_LIMIT_DELAY then
    (st.lastRequestTime + RATE_LIMIT_DELAY, ⟨st.lastRequestTime + RATE_LIMIT_DELAY⟩)
  else
    (now, ⟨now⟩)

/-- Two `rateLimitedFetch` calls whose synchronous prefixes both run
before either continuation resumes (concurrent arrivals in the event
loop): each prefix reads the same shared `lastRequestTime`, because the
update only happens when a continuation resumes.  Returns both fetch
start times. -/
def concurrentStarts (st : LimiterState) (nowA nowB : Int) : Int × Int :=
  ((rateLimitedFetch st nowA).1, (rateLimitedFetch st nowB).1)

/-- Claim-side definition (spec wording of C4): the fetched list with only
the entry at position `k` changed to `selected = true`, every order and
every other entry unchanged. -/
def setSelectedTrueAt (current : List PlaylistItem) (k : Nat) : List PlaylistItem :=
  List.mapIdx (fun i it => if i = k then { it with selected := true } else it) current

/-- Claim-side definition (spec wording of C7): lower-case a Latin letter
code point. -/
def lowerCode (n : Nat) : Nat :=
  if 65 ≤ n ∧ n ≤ 90 then n + 32 else n

/-- Claim-side definition (spec wording of C7): case-insensitive string
equality on code points. -/
def strEqCI (a b : String) : Bool :=
  a.data.map (fun c => lowerCode c.toNat) == b.data.map (fun c => lowerCode c.toNat)

/-- Claim-side definition (spec wording of C7): the second column,
compared case-insensitively, matches one of the truthy tokens `"true"`
or `"1"`. -/
def truthyCI (cell : Option String) : Bool :=
  match cell with
  | some s => strEqCI s "true" || strEqCI s "1"
  | none => false

/-! ## Helper lemmas -/

/-- Serializing one entry and re-parsing it at index `i` recovers the
entry with `order := i`. -/
theorem rowToItem_itemRow (i : Nat) (it : PlaylistItem) :
    rowToItem i (itemRow it) = { songId := it.songId, selected := it.selected, order := i } := by
  cases it with
  | mk songId selected order => cases selected <;> rfl

/-- A list whose `order` fields equal their positions is already sorted,
so the Writer's stable sort leaves it unchanged. -/
theorem sortByOrder_of_positional (l : List PlaylistItem)
    (hord : ∀ i, i < l.length → (l.getD i default).order = i) :
    sortByOrder l = l := by
  apply List.Sorted.insertionSort_eq
  rw [List.Sorted, List.pairwise_iff_getElem]
  intro i j hi hj hij
  have h1 := hord i hi
  have h2 := hord j hj
  rw [List.getD_eq_getElem _ _ hi] at h1
  rw [List.getD_eq_getElem _ _ hj] at h2
  show l[i].order ≤ l[j].order
  omega

/-- Core round-trip: parsing the Writer's payload for a list with
positional `order` fields and non-empty ids recovers the list. -/
theorem parseRows_writeValues (l : List PlaylistItem)
    (hord : ∀ i, i < l.length → (l.getD i default).order = i)
    (hne : ∀ it ∈ l, it.songId ≠ "") :
    parseRows (writeValues l) = l := by
  unfold parseRows writeValues
  rw [sortByOrder_of_positional l hord]
  simp only [List.drop_succ_cons, List.drop_zero]
  have hmap : List.mapIdx rowToItem (l.map itemRow) = l := by
    apply List.ext_getElem
    · simp [List.length_mapIdx]
    · intro n h1 h2
      rw [List.length_mapIdx, List.length_map] at h1
      have hget := List.get_mapIdx (l.map itemRow) rowToItem n (by simpa using h1)
      simp only [List.get_eq_getElem] at hget
      rw [hget, List.getElem_map, rowToItem_itemRow]
      have hn := hord n h2
      rw [List.getD_eq_getElem _ _ h2] at hn
      have heta : (⟨l[n].songId, l[n].selected, l[n].order⟩ : PlaylistItem) = l[n] := rfl
      rw [hn] at heta
      exact heta
  rw [hmap, List.filter_eq_self]
  intro a ha
  simpa using hne a ha

/-- Distinct positions carry distinct ids when the id column is
duplicate-free. -/
theorem songId_ne_of_nodup {l : List PlaylistItem}
    (hu : (l.map PlaylistItem.songId).Nodup)
    {i j : Nat} (hi : i < l.length) (hj : j < l.length) (hij : i ≠ j) :
    (l.get ⟨i, hi⟩).songId ≠ (l.get ⟨j, hj⟩).songId := by
  have hpw := (List.pairwise_iff_getElem).mp hu
  rcases Nat.lt_or_ge i j with h | h
  · have hne := hpw i j (by simpa using hi) (by simpa using hj) h
    simpa using hne
  · have hji : j < i := by omega
    have hne := hpw j i (by simpa using hj) (by simpa using hi) hji
    simp only [List.getElem_map] at hne
    simp only [List.get_eq_getElem]
    exact fun heq => hne heq.symm

/-- With a duplicate-free id column, `find?` on an id held by the entry
at position `k` returns exactly that entry. -/
theorem find?_songId_of_nodup {l : List PlaylistItem} {s : String} {k : Nat}
    (hu : (l.map PlaylistItem.songId).Nodup)
    (hk : k < l.length) (hid : (l.get ⟨k, hk⟩).songId = s) :
    l.find? (fun it => it.songId == s) = some (l.get ⟨k, hk⟩) := by
  have hks : (l.get ⟨k, hk⟩) ∈ l := l.get_mem k hk
  have hsome : (l.find? (fun it => it.songId == s)).isSome := by
    rw [List.find?_isSome]
    exact ⟨l.get ⟨k, hk⟩, hks, by rw [hid]; simp⟩
  obtain ⟨a, ha⟩ := Option.isSome_iff_exists.mp hsome
  have hamem : a ∈ l := List.mem_of_find?_eq_some ha
  have haid : a.songId = s := by
    have := List.find?_some ha
    simpa using this
  have : a = l.get ⟨k, hk⟩ :=
    List.inj_on_of_nodup_map hu hamem hks (by rw [haid, hid])
  rw [ha, this]

/-- Toggle on an id that is present and selected takes the remove
branch. -/
theorem toggle_eq_remove_of_selected {l : List PlaylistItem} {s : String} {k : Nat}
    (hu : (l.map PlaylistItem.songId).Nodup)
    (hk : k < l.length) (hid : (l.get ⟨k, hk⟩).songId = s)
    (hsel : (l.get ⟨k, hk⟩).selected = true) :
    toggleSongSelection l s = removeSongFromPlaylist l s := by
  unfold toggleSongSelection
  rw [find?_songId_of_nodup hu hk hid]
  simp only [List.get_eq_getElem] at hsel
  simp [hsel]

/-- Toggle on an id that is present and unselected takes the flip
branch. -/
theorem toggle_eq_flip_of_unselected {l : List PlaylistItem} {s : String} {k : Nat}
    (hu : (l.map PlaylistItem.songId).Nodup)
    (hk : k < l.length) (hid : (l.get ⟨k, hk⟩).songId = s)
    (hsel : (l.get ⟨k, hk⟩).selected = false) :
    toggleSongSelection l s
      = l.map (fun it => if it.songId == s then { it with selected := true } else it) := by
  unfold toggleSongSelection
  rw [find?_songId_of_nodup hu hk hid]
  simp only [List.get_eq_getElem] at hsel
  simp [hsel]

/-- Toggle on an absent id takes the add branch. -/
theorem toggle_eq_add_of_not_mem {l : List PlaylistItem} {s : String}
    (habs : ∀ it ∈ l, it.songId ≠ s) :
    toggleSongSelection l s = addSongToPlaylist l s := by
  unfold toggleSongSelection
  have hnone : l.find? (fun it => it.songId == s) = none := by
    rw [List.find?_eq_none]
    intro x hx
    simpa using habs x hx
  rw [hnone]

/-- Filtering out a uniquely-occurring id shortens the list by exactly
one. -/
theorem length_filter_ne_of_unique (l : List PlaylistItem) (s : String)
    (hu : (l.map PlaylistItem.songId).Nodup)
    (hmem : ∃ it ∈ l, it.songId = s) :
    (l.filter (fun it => it.songId ≠ s)).length + 1 = l.length := by
  induction l with
  | nil => simp at hmem
  | cons a rest ih =>
    rw [List.map_cons, List.nodup_cons] at hu
    by_cases ha : a.songId = s
    · have hrest : rest.filter (fun it => it.songId ≠ s) = rest := by
        rw [List.filter_eq_self]
        intro x hx
        have hxne : x.songId ≠ s := by
          intro hxs
          exact hu.1 (by rw [ha, ← hxs]; exact List.mem_map_of_mem PlaylistItem.songId hx)
        simpa using hxne
      have hcond : (decide (a.songId ≠ s)) = false := by simp [ha]
      rw [List.filter_cons, hcond, if_neg Bool.false_ne_true, hrest, List.length_cons]
    · have hmem' : ∃ it ∈ rest, it.songId = s := by
        obtain ⟨it, hit, hits⟩ := hmem
        rcases List.mem_cons.mp hit with h | h
        · exact absurd (h ▸ hits) ha
        · exact ⟨it, h, hits⟩
      have := ih hu.2 hmem'
      simp only [List.filter_cons]
      have hcond : (decide (a.songId ≠ s)) = true := by simpa using ha
      rw [hcond]
      simp only [if_true, List.length_cons]
      omega

/-- The length of a remove result: one less than the snapshot when the
id occurs (uniquely). -/
theorem length_removeSongFromPlaylist (l : List PlaylistItem) (s : String)
    (hu : (l.map PlaylistItem.songId).Nodup)
    (hmem : ∃ it ∈ l, it.songId = s) :
    (removeSongFromPlaylist l s).length + 1 = l.length := by
  unfold removeSongFromPlaylist
  rw [List.length_mapIdx]
  exact length_filter_ne_of_unique l s hu hmem

/-- Every entry of a remove result has the `order` of its position. -/
theorem order_removeSongFromPlaylist (l : List PlaylistItem) (s : String) :
    ∀ i, i < (removeSongFromPlaylist l s).length →
      ((removeSongFromPlaylist l s).getD i default).order = i := by
  intro i hi
  unfold removeSongFromPlaylist at hi ⊢
  rw [List.length_mapIdx] at hi
  rw [List.getD_eq_getElem _ _ (by rw [List.length_mapIdx]; exact hi)]
  have hget := List.get_mapIdx (l.filter (fun it => it.songId ≠ s))
    (fun i it => { it with order := i }) i hi
  simp only [List.get_eq_getElem] at hget
  rw [hget]

/-- A remove result keeps the ids and flags of the surviving entries, in
order. -/
theorem proj_removeSongFromPlaylist (l : List PlaylistItem) (s : String) :
    (removeSongFromPlaylist l s).map (fun it => (it.songId, it.selected))
      = (l.filter (fun it => it.songId ≠ s)).map (fun it => (it.songId, it.selected)) := by
  unfold removeSongFromPlaylist
  apply List.ext_getElem
  · simp [List.length_mapIdx]
  · intro n h1 h2
    rw [List.length_map, List.length_mapIdx] at h1
    rw [List.getElem_map, List.getElem_map]
    have hget := List.get_mapIdx (l.filter (fun it => it.songId ≠ s))
      (fun i it => { it with order := i }) n h1
    simp only [List.get_eq_getElem] at hget
    rw [hget]

/-- The id column of a remove result is the filtered id column of the
snapshot. -/
theorem map_songId_removeSongFromPlaylist (l : List PlaylistItem) (s : String) :
    (removeSongFromPlaylist l s).map PlaylistItem.songId
      = (l.filter (fun it => it.songId ≠ s)).map PlaylistItem.songId := by
  unfold removeSongFromPlaylist
  apply List.ext_getElem
  · simp [List.length_mapIdx]
  · intro n h1 h2
    rw [List.length_map, List.length_mapIdx] at h1
    rw [List.getElem_map, List.getElem_map]
    have hget := List.get_mapIdx (l.filter (fun it => it.songId ≠ s))
      (fun i it => { it with order := i }) n h1
    simp only [List.get_eq_getElem] at hget
    rw [hget]

/-- Every entry of a remove result descends from a surviving snapshot
entry: same id and flag, id different from the removed one. -/
theorem mem_removeSongFromPlaylist {l : List PlaylistItem} {s : String} {it : PlaylistItem}
    (hmem : it ∈ removeSongFromPlaylist l s) :
    ∃ jt ∈ l, jt.songId = it.songId ∧ jt.selected = it.selected ∧ jt.songId ≠ s := by
  unfold removeSongFromPlaylist at hmem
  obtain ⟨n, hn, hget⟩ := List.mem_iff_getElem.mp hmem
  rw [List.length_mapIdx] at hn
  have hidx := List.get_mapIdx (l.filter (fun x => x.songId ≠ s))
    (fun i x => { x with order := i }) n hn
  simp only [List.get_eq_getElem] at hidx
  rw [hidx] at hget
  set jt := (l.filter (fun x => x.songId ≠ s))[n] with hjt
  have hjmem : jt ∈ l.filter (fun x => x.songId ≠ s) := by
    rw [hjt]; exact List.getElem_mem hn
  have hfil := List.mem_filter.mp hjmem
  refine ⟨jt, hfil.1, ?_, ?_, by simpa using hfil.2⟩
  · rw [← hget]
  · rw [← hget]

/-- With unique ids, flipping every matching entry is flipping exactly
the one entry at the found position. -/
theorem flip_eq_setSelectedTrueAt {l : List PlaylistItem} {s : String} {k : Nat}
    (hu : (l.map PlaylistItem.songId).Nodup)
    (hk : k < l.length) (hid : (l.get ⟨k, hk⟩).songId = s) :
    l.map (fun it => if it.songId == s then { it with selected := true } else it)
      = setSelectedTrueAt l k := by
  unfold setSelectedTrueAt
  apply List.ext_getElem
  · simp [List.length_mapIdx]
  · intro n h1 h2
    rw [List.length_map] at h1
    rw [List.getElem_map]
    have hidx := List.get_mapIdx l
      (fun i it => if i = k then { it with selected := true } else it) n h1
    simp only [List.get_eq_getElem] at hidx
    rw [hidx]
    simp only [List.get_eq_getElem] at hid
    by_cases hnk : n = k
    · subst hnk
      rw [if_pos rfl, if_pos (by simp [hid])]
    · have hne := songId_ne_of_nodup hu h1 hk hnk
      simp only [List.get_eq_getElem] at hne
      rw [if_neg hnk, if_neg (by simp [hid ▸ hne])]

/-- The id column written by reorder is exactly the supplied sequence. -/
theorem reorder_map_songId (current : List PlaylistItem) (ids : List String) :
    (reorderPlaylist current ids).map PlaylistItem.songId = ids := by
  unfold reorderPlaylist
  apply List.ext_getElem
  · simp [List.length_mapIdx]
  · intro n h1 h2
    rw [List.length_map, List.length_mapIdx] at h1
    rw [List.getElem_map]
    have hidx := List.get_mapIdx ids
      (fun i songId =>
        ({ songId := songId,
           selected := ((current.find? (fun it => it.songId == songId)).map PlaylistItem.selected).getD true,
           order := i } : PlaylistItem)) n h1
    simp only [List.get_eq_getElem] at hidx
    rw [hidx]

/-- The order column written by reorder is `0, 1, ..., n-1`. -/
theorem reorder_map_order (current : List PlaylistItem) (ids : List String) :
    (reorderPlaylist current ids).map PlaylistItem.order = List.range ids.length := by
  unfold reorderPlaylist
  apply List.ext_getElem
  · simp [List.length_mapIdx]
  · intro n h1 h2
    rw [List.length_map, List.length_mapIdx] at h1
    rw [List.getElem_map]
    have hidx := List.get_mapIdx ids
      (fun i songId =>
        ({ songId := songId,
           selected := ((current.find? (fun it => it.songId == songId)).map PlaylistItem.selected).getD true,
           order := i } : PlaylistItem)) n h1
    simp only [List.get_eq_getElem] at hidx
    rw [hidx, List.getElem_range]

/-- Every entry written by reorder takes its flag from the snapshot via
`find?` (default `true`) and carries an id from the supplied sequence. -/
theorem mem_reorderPlaylist {current : List PlaylistItem} {ids : List String}
    {it : PlaylistItem} (hmem : it ∈ reorderPlaylist current ids) :
    it.selected = ((current.find? (fun x => x.songId == it.songId)).map PlaylistItem.selected).getD true
    ∧ it.songId ∈ ids := by
  unfold reorderPlaylist at hmem
  obtain ⟨n, hn, hget⟩ := List.mem_iff_getElem.mp hmem
  rw [List.length_mapIdx] at hn
  have hidx := List.get_mapIdx ids
    (fun i songId =>
      ({ songId := songId,
         selected := ((current.find? (fun x => x.songId == songId)).map PlaylistItem.selected).getD true,
         order := i } : PlaylistItem)) n hn
  simp only [List.get_eq_getElem] at hidx
  rw [hidx] at hget
  constructor
  · rw [← hget]
  · rw [← hget]
    exact List.getElem_mem hn

/-! ## Claims -/

/-- C1: for a sequence of entries with pairwise-distinct non-empty
`songId`s and `order` values exactly `0..n-1`, writing with the Writer
(`updatePlaylistData`, which sends a payload whenever the gate is ready
and a token is held) and reading the sent payload back with the Reader
(`getPlaylistData`) returns the same entries — same ids, same `selected`
flags, same `order` values, in the same order. -/
theorem C1_write_read_roundtrip (entries : List PlaylistItem) (env : WriteEnv)
    (hgapi : env.gapiReady = true) (htok : env.accessToken.isSome = true)
    (hord : ∀ i, i < entries.length → (entries.getD i default).order = i)
    (hne : ∀ it ∈ entries, it.songId ≠ "")
    (hu : (entries.map PlaylistItem.songId).Nodup) :
    ∃ payload, (updatePlaylistData env entries).sentPayload = some payload
      ∧ getPlaylistData (ReadFetchResult.response 200 (some ⟨some payload⟩)) = entries := by
  have _hu := hu
  refine ⟨writeValues entries, ?_, ?_⟩
  · unfold updatePlaylistData
    rw [hgapi]
    obtain ⟨tok, htok2⟩ := Option.isSome_iff_exists.mp htok
    rw [htok2]
    simp only [Bool.true_eq_false, if_false]
    cases henv : env.writeResult with
    | networkError => rfl
    | response status =>
      split
      · rfl
      · split
        · rfl
        · split
          · rfl
          · split <;> rfl
  · exact parseRows_writeValues entries hord hne

/-- C1 witness: a concrete authorized environment and a concrete
two-entry playlist satisfying the hypotheses round-trips. -/
theorem C1_write_read_roundtrip_witness :
    (({ gapiReady := true, accessToken := some "tok",
        writeResult := WriteFetchResult.response 200 } : WriteEnv).gapiReady = true)
    ∧ (({ gapiReady := true, accessToken := some "tok",
          writeResult := WriteFetchResult.response 200 } : WriteEnv).accessToken.isSome = true)
    ∧ (∀ i, i < ([{ songId := "a", selected := true, order := 0 },
                  { songId := "b", selected := false, order := 1 }] : List PlaylistItem).length →
        (([{ songId := "a", selected := true, order := 0 },
           { songId := "b", selected := false, order := 1 }] : List PlaylistItem).getD i default).order = i)
    ∧ (∀ it ∈ ([{ songId := "a", selected := true, order := 0 },
                { songId := "b", selected := false, order := 1 }] : List PlaylistItem), it.songId ≠ "")
    ∧ (([{ songId := "a", selected := true, order := 0 },
         { songId := "b", selected := false, order := 1 }] : List PlaylistItem).map PlaylistItem.songId).Nodup
    ∧ (∃ payload,
        (updatePlaylistData
          { gapiReady := true, accessToken := some "tok", writeResult := WriteFetchResult.response 200 }
          [{ songId := "a", selected := true, order := 0 },
           { songId := "b", selected := false, order := 1 }]).sentPayload = some payload
        ∧ getPlaylistData (ReadFetchResult.response 200 (some ⟨some payload⟩))
            = [{ songId := "a", selected := true, order := 0 },
               { songId := "b", selected := false, order := 1 }]) :=
  ⟨rfl, rfl, by decide, by decide, by decide,
    C1_write_read_roundtrip
      [{ songId := "a", selected := true, order := 0 },
       { songId := "b", selected := false, order := 1 }]
      { gapiReady := true, accessToken := some "tok", writeResult := WriteFetchResult.response 200 }
      rfl rfl (by decide) (by decide) (by decide)⟩

/-- C2: on any failure of the read against the backing store — the fetch
promise rejecting, a non-success HTTP status, or a malformed response
body — the Reader returns the empty list instead of an error. -/
theorem C2_read_failure_empty (r : ReadFetchResult)
    (h : r = ReadFetchResult.networkError
      ∨ (∃ status body, r = ReadFetchResult.response status body ∧ httpOk status = false)
      ∨ (∃ status, r = ReadFetchResult.response status none)) :
    getPlaylistData r = [] := by
  rcases h with h | ⟨status, body, hr, hstatus⟩ | ⟨status, hr⟩
  · rw [h]; rfl
  · subst hr
    simp only [getPlaylistData]
    rw [hstatus]
    rfl
  · subst hr
    simp only [getPlaylistData]
    by_cases hok : httpOk status
    · rw [hok]; rfl
    · simp [hok]

/-- C2 witness: a rejected fetch, a 500 response and a malformed 200
body all yield the empty playlist. -/
theorem C2_read_failure_empty_witness :
    (ReadFetchResult.networkError = ReadFetchResult.networkError
      ∨ (∃ status body, ReadFetchResult.networkError = ReadFetchResult.response status body
          ∧ httpOk status = false)
      ∨ (∃ status, ReadFetchResult.networkError = ReadFetchResult.response status none))
    ∧ getPlaylistData ReadFetchResult.networkError = []
    ∧ getPlaylistData (ReadFetchResult.response 500 (some ⟨some [["Song UUID", "Selected"], ["a", "TRUE"]]⟩)) = []
    ∧ getPlaylistData (ReadFetchResult.response 200 none) = [] :=
  ⟨Or.inl rfl, C2_read_failure_empty ReadFetchResult.networkError (Or.inl rfl),
    C2_read_failure_empty _ (Or.inr (Or.inl ⟨500, _, rfl, rfl⟩)),
    C2_read_failure_empty _ (Or.inr (Or.inr ⟨200, rfl⟩))⟩

/-- C3: when the Authorization Gate reports not ready, the Writer fails
immediately with the Unauthenticated error for every input, and no
payload is sent to the write endpoint. -/
theorem C3_unauthenticated_write_no_network (env : WriteEnv) (items : List PlaylistItem)
    (h : env.gapiReady = false) :
    (updatePlaylistData env items).result = Except.error WriteError.unauthenticated
    ∧ (updatePlaylistData env items).sentPayload = none := by
  unfold updatePlaylistData
  rw [h]
  exact ⟨rfl, rfl⟩

/-- C3 witness: a concrete signed-out environment rejects a non-trivial
write without a network call. -/
theorem C3_unauthenticated_write_no_network_witness :
    (({ gapiReady := false, accessToken := some "tok",
        writeResult := WriteFetchResult.response 200 } : WriteEnv).gapiReady = false)
    ∧ ((updatePlaylistData
          { gapiReady := false, accessToken := some "tok", writeResult := WriteFetchResult.response 200 }
          [{ songId := "a", selected := true, order := 0 }]).result
        = Except.error WriteError.unauthenticated
      ∧ (updatePlaylistData
          { gapiReady := false, accessToken := some "tok", writeResult := WriteFetchResult.response 200 }
          [{ songId := "a", selected := true, order := 0 }]).sentPayload = none) :=
  ⟨rfl,
    C3_unauthenticated_write_no_network
      { gapiReady := false, accessToken := some "tok", writeResult := WriteFetchResult.response 200 }
      [{ songId := "a", selected := true, order := 0 }] rfl⟩

/-- C4: the toggle trichotomy over a fetched playlist with unique ids —
a selected entry makes the write equal that of remove; an unselected
entry yields the fetched playlist with only that entry's flag flipped to
true (orders and all other entries unchanged); an absent id makes the
write equal that of add. -/
theorem C4_toggle_trichotomy (p : List PlaylistItem) (s : String)
    (hu : (p.map PlaylistItem.songId).Nodup) :
    (∀ k, ∀ hk : k < p.length, (p.get ⟨k, hk⟩).songId = s →
        ((p.get ⟨k, hk⟩).selected = true →
          toggleSongSelection p s = removeSongFromPlaylist p s)
        ∧ ((p.get ⟨k, hk⟩).selected = false →
          toggleSongSelection p s = setSelectedTrueAt p k))
    ∧ ((∀ it ∈ p, it.songId ≠ s) →
        toggleSongSelection p s = addSongToPlaylist p s) := by
  constructor
  · intro k hk hid
    constructor
    · intro hsel
      exact toggle_eq_remove_of_selected hu hk hid hsel
    · intro hsel
      rw [toggle_eq_flip_of_unselected hu hk hid hsel]
      exact flip_eq_setSelectedTrueAt hu hk hid
  · intro habs
    exact toggle_eq_add_of_not_mem habs

/-- C4 witness: a concrete unique-id playlist instantiates the
trichotomy; the unselected entry "a" at position 0 exercises the flip
branch. -/
theorem C4_toggle_trichotomy_witness :
    (([{ songId := "a", selected := false, order := 0 },
       { songId := "b", selected := true, order := 1 }] : List PlaylistItem).map
        PlaylistItem.songId).Nodup
    ∧ ((∀ k, ∀ hk : k < ([{ songId := "a", selected := false, order := 0 },
            { songId := "b", selected := true, order := 1 }] : List PlaylistItem).length,
          (([{ songId := "a", selected := false, order := 0 },
             { songId := "b", selected := true, order := 1 }] : List PlaylistItem).get ⟨k, hk⟩).songId = "a" →
          ((([{ songId := "a", selected := false, order := 0 },
              { songId := "b", selected := true, order := 1 }] : List PlaylistItem).get ⟨k, hk⟩).selected = true →
            toggleSongSelection
              [{ songId := "a", selected := false, order := 0 },
               { songId := "b", selected := true, order := 1 }] "a"
              = removeSongFromPlaylist
                  [{ songId := "a", selected := false, order := 0 },
                   { songId := "b", selected := true, order := 1 }] "a")
          ∧ ((([{ songId := "a", selected := false, order := 0 },
               { songId := "b", selected := true, order := 1 }] : List PlaylistItem).get ⟨k, hk⟩).selected = false →
            toggleSongSelection
              [{ songId := "a", selected := false, order := 0 },
               { songId := "b", selected := true, order := 1 }] "a"
              = setSelectedTrueAt
                  [{ songId := "a", selected := false, order := 0 },
                   { songId := "b", selected := true, order := 1 }] k))
        ∧ ((∀ it ∈ ([{ songId := "a", selected := false, order := 0 },
              { songId := "b", selected := true, order := 1 }] : List PlaylistItem), it.songId ≠ "a") →
            toggleSongSelection
              [{ songId := "a", selected := false, order := 0 },
               { songId := "b", selected := true, order := 1 }] "a"
              = addSongToPlaylist
                  [{ songId := "a", selected := false, order := 0 },
                   { songId := "b", selected := true, order := 1 }] "a")) :=
  ⟨by decide,
    C4_toggle_trichotomy
      [{ songId := "a", selected := false, order := 0 },
       { songId := "b", selected := true, order := 1 }] "a" (by decide)⟩

/-- C5: removing a uniquely-present id from a playlist of length n with
unique ids and positional orders writes back n-1 entries whose orders
are exactly `0..n-2` and whose surviving ids and flags keep their
relative order. -/
theorem C5_remove_reindexes (p : List PlaylistItem) (s : String)
    (hu : (p.map PlaylistItem.songId).Nodup)
    (hord : ∀ i, i < p.length → (p.getD i default).order = i)
    (hmem : ∃ it ∈ p, it.songId = s) :
    (removeSongFromPlaylist p s).length + 1 = p.length
    ∧ (∀ i, i < (removeSongFromPlaylist p s).length →
        ((removeSongFromPlaylist p s).getD i default).order = i)
    ∧ (removeSongFromPlaylist p s).map (fun it => (it.songId, it.selected))
        = (p.filter (fun it => it.songId ≠ s)).map (fun it => (it.songId, it.selected)) := by
  have _hord := hord
  exact ⟨length_removeSongFromPlaylist p s hu hmem,
    order_removeSongFromPlaylist p s,
    proj_removeSongFromPlaylist p s⟩

/-- C5 witness: removing "b" from a concrete three-entry playlist leaves
two entries with orders `0, 1` and the surviving ids in order. -/
theorem C5_remove_reindexes_witness :
    (([{ songId := "a", selected := true, order := 0 },
       { songId := "b", selected := false, order := 1 },
       { songId := "c", selected := true, order := 2 }] : List PlaylistItem).map
        PlaylistItem.songId).Nodup
    ∧ (∀ i, i < ([{ songId := "a", selected := true, order := 0 },
          { songId := "b", selected := false, order := 1 },
          { songId := "c", selected := true, order := 2 }] : List PlaylistItem).length →
        (([{ songId := "a", selected := true, order := 0 },
           { songId := "b", selected := false, order := 1 },
           { songId := "c", selected := true, order := 2 }] : List PlaylistItem).getD i default).order = i)
    ∧ (∃ it ∈ ([{ songId := "a", selected := true, order := 0 },
          { songId := "b", selected := false, order := 1 },
          { songId := "c", selected := true, order := 2 }] : List PlaylistItem), it.songId = "b")
    ∧ ((removeSongFromPlaylist
          [{ songId := "a", selected := true, order := 0 },
           { songId := "b", selected := false, order := 1 },
           { songId := "c", selected := true, order := 2 }] "b").length + 1
        = ([{ songId := "a", selected := true, order := 0 },
            { songId := "b", selected := false, order := 1 },
            { songId := "c", selected := true, order := 2 }] : List PlaylistItem).length
      ∧ (∀ i, i < (removeSongFromPlaylist
            [{ songId := "a", selected := true, order := 0 },
             { songId := "b", selected := false, order := 1 },
             { songId := "c", selected := true, order := 2 }] "b").length →
          ((removeSongFromPlaylist
              [{ songId := "a", selected := true, order := 0 },
               { songId := "b", selected := false, order := 1 },
               { songId := "c", selected := true, order := 2 }] "b").getD i default).order = i)
      ∧ (removeSongFromPlaylist
            [{ songId := "a", selected := true, order := 0 },
             { songId := "b", selected := false, order := 1 },
             { songId := "c", selected := true, order := 2 }] "b").map (fun it => (it.songId, it.selected))
          = (([{ songId := "a", selected := true, order := 0 },
               { songId := "b", selected := false, order := 1 },
               { songId := "c", selected := true, order := 2 }] : List PlaylistItem).filter
                (fun it => it.songId ≠ "b")).map (fun it => (it.songId, it.selected))) :=
  ⟨by decide, by decide, by decide,
    C5_remove_reindexes
      [{ songId := "a", selected := true, order := 0 },
       { songId := "b", selected := false, order := 1 },
       { songId := "c", selected := true, order := 2 }] "b"
      (by decide) (by decide) (by decide)⟩

/-- C6: reorder writes exactly one entry per supplied id, ordered by the
id's position in the supplied sequence; each entry's flag comes from the
fetched snapshot via `find?` and defaults to true; every entry written
carries an id of the supplied sequence, so fetched entries with absent
ids are dropped. -/
theorem C6_reorder_rebuild (current : List PlaylistItem) (ids : List String) :
    (reorderPlaylist current ids).map PlaylistItem.songId = ids
    ∧ (reorderPlaylist current ids).map PlaylistItem.order = List.range ids.length
    ∧ (∀ it ∈ reorderPlaylist current ids,
        it.selected
          = ((current.find? (fun x => x.songId == it.songId)).map PlaylistItem.selected).getD true)
    ∧ (∀ it ∈ reorderPlaylist current ids, it.songId ∈ ids) :=
  ⟨reorder_map_songId current ids,
   reorder_map_order current ids,
   fun _ hmem => (mem_reorderPlaylist hmem).1,
   fun _ hmem => (mem_reorderPlaylist hmem).2⟩

/-- C6 witness: reordering a {a, b, c} snapshot by `[c, a]` keeps only c
(order 0, flag from the snapshot) and a (order 1), and drops b. -/
theorem C6_reorder_rebuild_witness :
    (reorderPlaylist
        [{ songId := "a", selected := false, order := 0 },
         { songId := "b", selected := true, order := 1 },
         { songId := "c", selected := true, order := 2 }] ["c", "a"]).map PlaylistItem.songId
      = ["c", "a"]
    ∧ (reorderPlaylist
        [{ songId := "a", selected := false, order := 0 },
         { songId := "b", selected := true, order := 1 },
         { songId := "c", selected := true, order := 2 }] ["c", "a"]).map PlaylistItem.order
      = List.range (["c", "a"] : List String).length
    ∧ (∀ it ∈ reorderPlaylist
        [{ songId := "a", selected := false, order := 0 },
         { songId := "b", selected := true, order := 1 },
         { songId := "c", selected := true, order := 2 }] ["c", "a"],
        it.selected
          = ((([{ songId := "a", selected := false, order := 0 },
               { songId := "b", selected := true, order := 1 },
               { songId := "c", selected := true, order := 2 }] : List PlaylistItem).find?
                (fun x => x.songId == it.songId)).map PlaylistItem.selected).getD true)
    ∧ (∀ it ∈ reorderPlaylist
        [{ songId := "a", selected := false, order := 0 },
         { songId := "b", selected := true, order := 1 },
         { songId := "c", selected := true, order := 2 }] ["c", "a"],
        it.songId ∈ (["c", "a"] : List String)) :=
  C6_reorder_rebuild
    [{ songId := "a", selected := false, order := 0 },
     { songId := "b", selected := true, order := 1 },
     { songId := "c", selected := true, order := 2 }] ["c", "a"]

/-- C7 counterexample: the claim says the flag is set iff the second
column matches a truthy token case-insensitively; the row
`["a", "True"]` matches `"true"` case-insensitively, yet the Reader
leaves the entry unselected, because the source compares with `===`
against the exact spellings `'TRUE'`, `'true'`, `'1'` only. -/
theorem C7_counterexample :
    (rowToItem 0 ["a", "True"]).selected = false
    ∧ truthyCI ((["a", "True"] : List String)[1]?) = true
    ∧ ¬ ((rowToItem 0 ["a", "True"]).selected = true
          ↔ truthyCI ((["a", "True"] : List String)[1]?) = true) := by
  refine ⟨rfl, by decide, ?_⟩
  intro hiff
  have : (rowToItem 0 ["a", "True"]).selected = true := hiff.mpr (by decide)
  simp [rowToItem, parseSelected] at this

/-- C7 (amended): for every data row the Reader turns into an entry, the
entry's `selected` flag is true iff the row's second column is exactly
one of the literal strings `"TRUE"`, `"true"` or `"1"`; every other
value — other casings such as `"True"` included, and empty or missing
cells — yields `selected = false`. -/
theorem C7_selected_exact_tokens (i : Nat) (row : List String) :
    (rowToItem i row).selected = true
      ↔ (row[1]? = some "TRUE" ∨ row[1]? = some "true" ∨ row[1]? = some "1") := by
  simp only [rowToItem, parseSelected, Bool.or_eq_true, beq_iff_eq]
  tauto

/-- C8: starting from a stored playlist of length n with unique non-empty
ids, positional orders, and the entry for `s` selected at position
`k < n-1`, one toggle removes the entry (n-1 entries, orders `0..n-2`),
and — the intermediate write being read back unchanged — a second toggle
re-adds `s` as selected at the end with `order = n-1` of the shorter
list (that is, position `n-1` of the original length minus one), which
differs from the original position `k`. -/
theorem C8_toggle_position_loss (p : List PlaylistItem) (s : String) (k : Nat)
    (hu : (p.map PlaylistItem.songId).Nodup)
    (hne : ∀ it ∈ p, it.songId ≠ "")
    (hord : ∀ i, i < p.length → (p.getD i default).order = i)
    (hk : k + 1 < p.length)
    (hid : (p.getD k default).songId = s)
    (hsel : (p.getD k default).selected = true) :
    toggleSongSelection p s = removeSongFromPlaylist p s
    ∧ (toggleSongSelection p s).length + 1 = p.length
    ∧ (∀ i, i < (toggleSongSelection p s).length →
        ((toggleSongSelection p s).getD i default).order = i)
    ∧ parseRows (writeValues (toggleSongSelection p s)) = toggleSongSelection p s
    ∧ toggleSongSelection (parseRows (writeValues (toggleSongSelection p s))) s
        = toggleSongSelection p s ++ [{ songId := s, selected := true, order := p.length - 1 }]
    ∧ p.length - 1 ≠ k := by
  have _hord := hord
  have hklt : k < p.length := by omega
  have hidg : (p.get ⟨k, hklt⟩).songId = s := by
    rw [List.get_eq_getElem, ← List.getD_eq_getElem p default hklt]
    exact hid
  have hselg : (p.get ⟨k, hklt⟩).selected = true := by
    rw [List.get_eq_getElem, ← List.getD_eq_getElem p default hklt]
    exact hsel
  have h1 : toggleSongSelection p s = removeSongFromPlaylist p s :=
    toggle_eq_remove_of_selected hu hklt hidg hselg
  have hmem : ∃ it ∈ p, it.songId = s := ⟨p.get ⟨k, hklt⟩, p.get_mem k hklt, hidg⟩
  have h2 : (removeSongFromPlaylist p s).length + 1 = p.length :=
    length_removeSongFromPlaylist p s hu hmem
  have hne1 : ∀ it ∈ removeSongFromPlaylist p s, it.songId ≠ "" := by
    intro it hit
    obtain ⟨jt, hjt, hjid, -, -⟩ := mem_removeSongFromPlaylist hit
    rw [← hjid]
    exact hne jt hjt
  have habs : ∀ it ∈ removeSongFromPlaylist p s, it.songId ≠ s := by
    intro it hit
    obtain ⟨jt, hjt, hjid, -, hjs⟩ := mem_removeSongFromPlaylist hit
    rw [← hjid]
    exact hjs
  have h4 : parseRows (writeValues (removeSongFromPlaylist p s)) = removeSongFromPlaylist p s :=
    parseRows_writeValues _ (order_removeSongFromPlaylist p s) hne1
  have h5 : toggleSongSelection (removeSongFromPlaylist p s) s
      = addSongToPlaylist (removeSongFromPlaylist p s) s :=
    toggle_eq_add_of_not_mem habs
  have hlen1 : (removeSongFromPlaylist p s).length = p.length - 1 := by omega
  refine ⟨h1, ?_, ?_, ?_, ?_, by omega⟩
  · rw [h1]; exact h2
  · rw [h1]; exact order_removeSongFromPlaylist p s
  · rw [h1]; exact h4
  · rw [h1, h4, h5]
    unfold addSongToPlaylist
    rw [hlen1]

/-- C8 witness: in the concrete playlist `[a selected, b, c]` toggling
"a" twice re-adds it at the end with order 2, not at its original
position 0. -/
theorem C8_toggle_position_loss_witness :
    (([{ songId := "a", selected := true, order := 0 },
       { songId := "b", selected := true, order := 1 },
       { songId := "c", selected := false, order := 2 }] : List PlaylistItem).map
        PlaylistItem.songId).Nodup
    ∧ (∀ it ∈ ([{ songId := "a", selected := true, order := 0 },
         { songId := "b", selected := true, order := 1 },
         { songId := "c", selected := false, order := 2 }] : List PlaylistItem), it.songId ≠ "")
    ∧ (∀ i, i < ([{ songId := "a", selected := true, order := 0 },
         { songId := "b", selected := true, order := 1 },
         { songId := "c", selected := false, order := 2 }] : List PlaylistItem).length →
        (([{ songId := "a", selected := true, order := 0 },
           { songId := "b", selected := true, order := 1 },
           { songId := "c", selected := false, order := 2 }] : List PlaylistItem).getD i default).order = i)
    ∧ 0 + 1 < ([{ songId := "a", selected := true, order := 0 },
         { songId := "b", selected := true, order := 1 },
         { songId := "c", selected := false, order := 2 }] : List PlaylistItem).length
    ∧ (toggleSongSelection
        (parseRows (writeValues (toggleSongSelection
          [{ songId := "a", selected := true, order := 0 },
           { songId := "b", selected := true, order := 1 },
           { songId := "c", selected := false, order := 2 }] "a"))) "a"
        = toggleSongSelection
            [{ songId := "a", selected := true, order := 0 },
             { songId := "b", selected := true, order := 1 },
             { songId := "c", selected := false, order := 2 }] "a"
          ++ [{ songId := "a", selected := true,
                order := ([{ songId := "a", selected := true, order := 0 },
                           { songId := "b", selected := true, order := 1 },
                           { songId := "c", selected := false, order := 2 }] : List PlaylistItem).length - 1 }]) :=
  ⟨by decide, by decide, by decide, by decide,
    (C8_toggle_position_loss
      [{ songId := "a", selected := true, order := 0 },
       { songId := "b", selected := true, order := 1 },
       { songId := "c", selected := false, order := 2 }] "a" 0
      (by decide) (by decide) (by decide) (by decide) (by decide) (by decide)).2.2.2.2.1⟩

/-- C9 counterexample: two calls arriving concurrently (both synchronous
prefixes run before either continuation resumes, so both read the same
`lastRequestTime = 0` at time 500) start their guarded fetches at the
same instant 1000 — zero milliseconds apart, violating the claimed
minimum spacing for calls that arrive while another caller is waiting. -/
theorem C9_counterexample :
    (concurrentStarts { lastRequestTime := 0 } 500 500).1 = 1000
    ∧ (concurrentStarts { lastRequestTime := 0 } 500 500).2 = 1000
    ∧ ¬ (RATE_LIMIT_DELAY ≤
          (concurrentStarts { lastRequestTime := 0 } 500 500).2
            - (concurrentStarts { lastRequestTime := 0 } 500 500).1
        ∨ RATE_LIMIT_DELAY ≤
          (concurrentStarts { lastRequestTime := 0 } 500 500).1
            - (concurrentStarts { lastRequestTime := 0 } 500 500).2) := by
  refine ⟨rfl, rfl, ?_⟩
  intro h
  rcases h with h | h <;> simp [concurrentStarts, rateLimitedFetch, RATE_LIMIT_DELAY] at h

/-- After a call resumes, the shared `lastRequestTime` equals that
call's fetch start time. -/
theorem rateLimitedFetch_state_eq_start (st : LimiterState) (now : Int) :
    (rateLimitedFetch st now).2.lastRequestTime = (rateLimitedFetch st now).1 := by
  show (if now - st.lastRequestTime < RATE_LIMIT_DELAY then
      ((st.lastRequestTime + RATE_LIMIT_DELAY,
        ⟨st.lastRequestTime + RATE_LIMIT_DELAY⟩) : Int × LimiterState)
    else (now, ⟨now⟩)).2.lastRequestTime
    = (if now - st.lastRequestTime < RATE_LIMIT_DELAY then
      ((st.lastRequestTime + RATE_LIMIT_DELAY,
        ⟨st.lastRequestTime + RATE_LIMIT_DELAY⟩) : Int × LimiterState)
    else (now, ⟨now⟩)).1
  split <;> rfl

/-- Any single call starts its guarded fetch at least the configured
interval after the `lastRequestTime` its prefix read. -/
theorem rateLimitedFetch_gap (st : LimiterState) (now : Int) :
    RATE_LIMIT_DELAY ≤ (rateLimitedFetch st now).1 - st.lastRequestTime := by
  show RATE_LIMIT_DELAY ≤ (if now - st.lastRequestTime < RATE_LIMIT_DELAY then
      ((st.lastRequestTime + RATE_LIMIT_DELAY,
        ⟨st.lastRequestTime + RATE_LIMIT_DELAY⟩) : Int × LimiterState)
    else (now, ⟨now⟩)).1 - st.lastRequestTime
  split
  · simp
  · rename_i h
    simp only [RATE_LIMIT_DELAY] at h ⊢
    omega

/-- C9 (amended): the minimum-interval guarantee holds for serialized
calls — whenever the later call's synchronous prefix runs only after the
earlier call has resumed and updated `lastRequestTime`, the later
guarded fetch starts at least `RATE_LIMIT_DELAY` after the earlier one;
concurrent arrivals that read the same `lastRequestTime` are not spaced
(see the counterexample). -/
theorem C9_sequential_spacing (st : LimiterState) (now1 now2 : Int) :
    RATE_LIMIT_DELAY ≤
      (rateLimitedFetch (rateLimitedFetch st now1).2 now2).1 - (rateLimitedFetch st now1).1 := by
  have hA := rateLimitedFetch_state_eq_start st now1
  have hB := rateLimitedFetch_gap (rateLimitedFetch st now1).2 now2
  rw [hA] at hB
  exact hB

/-- C10: reorder performs no deduplication — whenever the supplied id
sequence repeats an id, the written list contains one entry per
occurrence (its id column is exactly the supplied sequence), so the
id-uniqueness invariant does not survive the write. -/
theorem C10_reorder_keeps_duplicates (current : List PlaylistItem) (ids : List String)
    (hdup : ¬ ids.Nodup) :
    (reorderPlaylist current ids).map PlaylistItem.songId = ids
    ∧ ¬ ((reorderPlaylist current ids).map PlaylistItem.songId).Nodup := by
  have h := reorder_map_songId current ids
  exact ⟨h, by rw [h]; exact hdup⟩

/-- C10 witness: reordering by `[a, a]` writes two rows with the same
id. -/
theorem C10_reorder_keeps_duplicates_witness :
    ¬ (["a", "a"] : List String).Nodup
    ∧ ((reorderPlaylist [{ songId := "a", selected := false, order := 0 }] ["a", "a"]).map
          PlaylistItem.songId = ["a", "a"]
      ∧ ¬ ((reorderPlaylist [{ songId := "a", selected := false, order := 0 }] ["a", "a"]).map
            PlaylistItem.songId).Nodup) :=
  ⟨by decide,
    C10_reorder_keeps_duplicates [{ songId := "a", selected := false, order := 0 }] ["a", "a"]
      (by decide)⟩
